import Mathlib

/-!
Verification development for the swftp dual-protocol (FTP/SFTP) gateway.

The definitions below are a shallow embedding of the code in
`swftp/ftp/server.py`, `swftp/ftp/service.py` and `swftp/sftp/server.py`.
Deferred callback/errback chains are embedded as total functions from the
backend outcome (an `Except` value) to the front-end outcome; the mutable
per-class connection-count dictionaries are embedded as association lists
passed explicitly.
-/

set_option maxHeartbeats 1000000

namespace Swftp

/-- Lookup in a `defaultdict(int)` keyed by username: missing keys read as 0. -/
def getCount : List (String × Nat) → String → Nat
  | [], _ => 0
  | p :: rest, u => if p.1 = u then p.2 else getCount rest u

/-- Store a value under a key, updating the entry in place or appending it
(the association-list embedding of `d[u] = n`). -/
def storeCount : List (String × Nat) → String → Nat → List (String × Nat)
  | [], u, n => [(u, n)]
  | p :: rest, u, n => if p.1 = u then (u, n) :: rest else p :: storeCount rest u n

/-- Embedding of `self._connCountMap[username] += 1` on a `defaultdict(int)`. -/
def incrCount (m : List (String × Nat)) (u : String) : List (String × Nat) :=
  storeCount m u (getCount m u + 1)

/-- Observable outcome of the post-authentication hook: the updated count map,
whether a too-many-connections signal was sent, and whether the connection was
closed (`loseConnection`). -/
structure AuthOutcome where
  counts : List (String × Nat)
  sentTooManyConnections : Bool
  lostConnection : Bool
deriving DecidableEq

/-- Embedding of the `pass_cb` callback inside `SwftpFTPProtocol.ftp_PASS`
(swftp/ftp/server.py lines 67-86): after successful authentication, increment
the count for `username`; if `maxConnectionsPerUser` is nonzero and the new
count exceeds it, send `RESPONSE[TOO_MANY_CONNECTIONS]` and lose the
connection. -/
def SwftpFTPProtocol.pass_cb (m : List (String × Nat)) (username : String)
    (maxConnectionsPerUser : Nat) : AuthOutcome :=
  let m2 := incrCount m username
  if maxConnectionsPerUser ≠ 0 ∧ getCount m2 username > maxConnectionsPerUser then
    ⟨m2, true, true⟩
  else
    ⟨m2, false, false⟩

/-- Embedding of `SwiftSSHServerTransport.on_auth` (swftp/sftp/server.py lines
118-139): if no avatar is set, return unchanged; otherwise increment the count
for the avatar's username and, when `maxConnectionsPerUser` is nonzero and
exceeded, send `DISCONNECT_TOO_MANY_CONNECTIONS` and lose the connection. -/
def SwiftSSHServerTransport.on_auth (m : List (String × Nat))
    (avatar : Option String) (maxConnectionsPerUser : Nat) : AuthOutcome :=
  match avatar with
  | none => ⟨m, false, false⟩
  | some username =>
    let m2 := incrCount m username
    if maxConnectionsPerUser ≠ 0 ∧ getCount m2 username > maxConnectionsPerUser then
      ⟨m2, true, true⟩
    else
      ⟨m2, false, false⟩

/-- Combined state of the two class-level registries: `SwftpFTPProtocol`
declares `_connCountMap = defaultdict(int)` (swftp/ftp/server.py line 49) and
`SwiftSSHServerTransport` declares a second, distinct
`_connCountMap = defaultdict(int)` (swftp/sftp/server.py line 86). They are
two separate objects, so the state carries both. -/
structure FrontEndsState where
  ftpConnCountMap : List (String × Nat)
  sftpConnCountMap : List (String × Nat)
deriving DecidableEq

/-- An FTP authentication acting on the combined state: `ftp_PASS` reads and
writes only the FTP class attribute. Returns the new state and whether the
connection was rejected. -/
def ftpFrontEndAuth (s : FrontEndsState) (u : String) (maxC : Nat) :
    FrontEndsState × Bool :=
  let o := SwftpFTPProtocol.pass_cb s.ftpConnCountMap u maxC
  (⟨o.counts, s.sftpConnCountMap⟩, o.lostConnection)

/-- An SSH userauth success acting on the combined state: `on_auth` reads and
writes only the SFTP class attribute. Returns the new state and whether the
connection was rejected. -/
def sftpFrontEndAuth (s : FrontEndsState) (u : String) (maxC : Nat) :
    FrontEndsState × Bool :=
  let o := SwiftSSHServerTransport.on_auth s.sftpConnCountMap (some u) maxC
  (⟨s.ftpConnCountMap, o.counts⟩, o.lostConnection)

lemma getCount_storeCount_self (m : List (String × Nat)) (u : String) (n : Nat) :
    getCount (storeCount m u n) u = n := by
  induction m with
  | nil => simp [storeCount, getCount]
  | cons p rest ih =>
    by_cases h : p.1 = u
    · simp [storeCount, getCount, h]
    · simp [storeCount, getCount, h, ih]

lemma getCount_incrCount_self (m : List (String × Nat)) (u : String) :
    getCount (incrCount m u) u = getCount m u + 1 := by
  simp [incrCount, getCount_storeCount_self]

/-- Claim C1: for every user and configured per-user maximum N with N different
from 0, when that user's (N+1)-th concurrent session completes authentication
(FTP PASS or SSH userauth), the front end increments the user's connection
count, sends a too-many-connections response, and terminates that connection;
when the configured maximum is 0, no session is ever rejected for the count. -/
theorem claim_C1 (m : List (String × Nat)) (u : String) (N : Nat)
    (hN : N ≠ 0) (hcount : getCount m u = N) :
    getCount (SwftpFTPProtocol.pass_cb m u N).counts u = N + 1
    ∧ (SwftpFTPProtocol.pass_cb m u N).sentTooManyConnections = true
    ∧ (SwftpFTPProtocol.pass_cb m u N).lostConnection = true
    ∧ getCount (SwiftSSHServerTransport.on_auth m (some u) N).counts u = N + 1
    ∧ (SwiftSSHServerTransport.on_auth m (some u) N).sentTooManyConnections = true
    ∧ (SwiftSSHServerTransport.on_auth m (some u) N).lostConnection = true
    ∧ (∀ (m2 : List (String × Nat)) (u2 : String),
        (SwftpFTPProtocol.pass_cb m2 u2 0).sentTooManyConnections = false
        ∧ (SwftpFTPProtocol.pass_cb m2 u2 0).lostConnection = false
        ∧ (SwiftSSHServerTransport.on_auth m2 (some u2) 0).sentTooManyConnections = false
        ∧ (SwiftSSHServerTransport.on_auth m2 (some u2) 0).lostConnection = false) := by
  have hover : getCount (incrCount m u) u > N := by
    rw [getCount_incrCount_self, hcount]; omega
  have hcond : N ≠ 0 ∧ getCount (incrCount m u) u > N := ⟨hN, hover⟩
  refine ⟨?_, ?_, ?_, ?_, ?_, ?_, ?_⟩
  · simp only [SwftpFTPProtocol.pass_cb, if_pos hcond]
    rw [getCount_incrCount_self, hcount]
  · simp only [SwftpFTPProtocol.pass_cb, if_pos hcond]
  · simp only [SwftpFTPProtocol.pass_cb, if_pos hcond]
  · simp only [SwiftSSHServerTransport.on_auth, if_pos hcond]
    rw [getCount_incrCount_self, hcount]
  · simp only [SwiftSSHServerTransport.on_auth, if_pos hcond]
  · simp only [SwiftSSHServerTransport.on_auth, if_pos hcond]
  · intro m2 u2
    refine ⟨?_, ?_, ?_, ?_⟩ <;>
      simp [SwftpFTPProtocol.pass_cb, SwiftSSHServerTransport.on_auth]

/-- Witness for claim C1 at a concrete state: user alice already has 2 active
sessions and the configured maximum is 2, so her 3rd session is rejected. -/
theorem claim_C1_witness :
    getCount (SwftpFTPProtocol.pass_cb [("alice", 2)] "alice" 2).counts "alice" = 3
    ∧ (SwftpFTPProtocol.pass_cb [("alice", 2)] "alice" 2).sentTooManyConnections = true
    ∧ (SwftpFTPProtocol.pass_cb [("alice", 2)] "alice" 2).lostConnection = true
    ∧ (SwiftSSHServerTransport.on_auth [("alice", 2)] (some "alice") 2).lostConnection = true := by
  have h := claim_C1 [("alice", 2)] "alice" 2 (by decide) (by decide)
  exact ⟨h.1, h.2.1, h.2.2.1, h.2.2.2.2.2.1⟩

/-- Claim C2 counterexample: the two `_connCountMap` dictionaries are distinct
class attributes, so the registries are not shared. Starting from empty
registries with per-user cap 1, user alice authenticates one SFTP session
(admitted) and then one FTP session: the FTP front end sees a count of 0 for
alice before its own increment and admits the session, even though alice then
has 2 concurrent authenticated sessions — under a single shared registry the
second session would have been rejected. -/
theorem claim_C2_counterexample :
    (sftpFrontEndAuth ⟨[], []⟩ "alice" 1).2 = false
    ∧ getCount ((sftpFrontEndAuth ⟨[], []⟩ "alice" 1).1).sftpConnCountMap "alice" = 1
    ∧ getCount ((sftpFrontEndAuth ⟨[], []⟩ "alice" 1).1).ftpConnCountMap "alice" = 0
    ∧ (ftpFrontEndAuth (sftpFrontEndAuth ⟨[], []⟩ "alice" 1).1 "alice" 1).2 = false
    ∧ getCount
        ((ftpFrontEndAuth (sftpFrontEndAuth ⟨[], []⟩ "alice" 1).1 "alice" 1).1).ftpConnCountMap
        "alice" = 1 := by
  decide

/-- Claim C2 amended: each protocol front end keeps its own class-level
per-user registry; an authentication on one front end never changes the other
front end's counts, so a user's FTP and SFTP sessions are counted
independently, each against its own front end's cap (they are not counted
together). -/
theorem claim_C2_amended (s : FrontEndsState) (u : String) (maxC : Nat) :
    ((sftpFrontEndAuth s u maxC).1).ftpConnCountMap = s.ftpConnCountMap
    ∧ ((ftpFrontEndAuth s u maxC).1).sftpConnCountMap = s.sftpConnCountMap :=
  ⟨rfl, rfl⟩

/-- Error taxonomy of the backend layer as imported by both front ends:
`NotFound`, `Conflict`, `UnAuthorized` come from `swftp.swift`;
`notImplementedError` embeds Python's `NotImplementedError`, which the
filesystem layer raises for directory-resolving paths (this is the error class
`SwiftFTPShell.removeFile` checks for); `otherFailure` stands for any other
failure propagating through an errback chain untrapped. -/
inductive SwiftError where
  | notFound
  | conflict
  | unAuthorized
  | notImplementedError
  | otherFailure (msg : String)
deriving DecidableEq

/-- Result of `swiftfilesystem.getAttrs`, as consumed by `SwiftFTPShell.access`
(only the content type is inspected there). -/
structure GetAttrsResult where
  content_type : String
deriving DecidableEq

/-- Protocol-level FTP errors raised by `SwiftFTPShell` (the twisted exception
classes imported in swftp/ftp/server.py), plus `propagated` for a backend
failure that no errback traps. -/
inductive FTPError where
  | cmdNotImplementedForArg (msg : String)
  | fileNotFound (p : String)
  | isADirectory (p : String)
  | isNotADirectory (p : String)
  | permissionDenied (p : String)
  | propagated (e : SwiftError)
deriving DecidableEq

/-- SFTP status codes used by `SFTPServerForSwiftConchUser`. -/
inductive SFTPStatusCode where
  | fxFailure
  | fxNoSuchFile
deriving DecidableEq

/-- Failure channel of an SFTP front-end operation: either an `SFTPError`
raised explicitly with a status code and message, or a backend failure that no
errback traps and that therefore propagates to the external protocol engine. -/
inductive SFTPFailureKind where
  | sftpError (code : SFTPStatusCode) (msg : String)
  | propagated (e : SwiftError)
deriving DecidableEq

/-- Python `sep.join(parts)`. -/
def pyJoin (sep : String) : List String → String
  | [] => ""
  | [s] => s
  | s :: rest => s ++ sep ++ pyJoin sep rest

/-- Embedding of `SwiftFTPShell.removeDirectory` (swftp/ftp/server.py lines
152-167) as a function of the backend outcome: `not_found_eb` traps `NotFound`
and absorbs it (success); `conflict_eb` traps `Conflict` and raises
`CmdNotImplementedForArgError`; anything else propagates. -/
def SwiftFTPShell.removeDirectory (res : Except SwiftError Unit) :
    Except FTPError Unit :=
  match res with
  | .ok () => .ok ()
  | .error .notFound => .ok ()
  | .error .conflict =>
    .error (.cmdNotImplementedForArg "Cannot delete non-empty directories.")
  | .error e => .error (.propagated e)

/-- Embedding of `SwiftFTPShell.removeFile` (swftp/ftp/server.py lines
169-179): the errback traps `NotFound` and `NotImplementedError`; for
`NotImplementedError` it fails with `IsADirectoryError(fullpath)`, for
`NotFound` it absorbs the failure (success); anything else propagates. -/
def SwiftFTPShell.removeFile (fullpath : String) (res : Except SwiftError Unit) :
    Except FTPError Unit :=
  match res with
  | .ok () => .ok ()
  | .error .notFound => .ok ()
  | .error .notImplementedError => .error (.isADirectory fullpath)
  | .error e => .error (.propagated e)

/-- Embedding of `SFTPServerForSwiftConchUser.removeFile` (swftp/sftp/server.py
lines 239-253): the errback traps only `NotFound`, absorbing it into success;
every other failure — including the directory-type `NotImplementedError` —
propagates untranslated. -/
def SFTPServerForSwiftConchUser.removeFile (res : Except SwiftError Unit) :
    Except SFTPFailureKind Unit :=
  match res with
  | .ok () => .ok ()
  | .error .notFound => .ok ()
  | .error e => .error (.propagated e)

/-- Embedding of `SFTPServerForSwiftConchUser.removeDirectory`
(swftp/sftp/server.py lines 293-311): the errback traps `NotFound` (absorbed
into success) and `Conflict` (raised as `SFTPError(FX_FAILURE, ...)`);
anything else propagates. -/
def SFTPServerForSwiftConchUser.removeDirectory (res : Except SwiftError Unit) :
    Except SFTPFailureKind Unit :=
  match res with
  | .ok () => .ok ()
  | .error .notFound => .ok ()
  | .error .conflict => .error (.sftpError .fxFailure "Directory Not Empty")
  | .error e => .error (.propagated e)

/-- Default of the `allow_no_existing_path` mode: the `SwiftFTPShell` class
attribute is `False` (swftp/ftp/server.py line 122) and `CONFIG_DEFAULTS`
sets the option to the string no (swftp/ftp/service.py line 44). -/
def SwiftFTPShell.allow_no_existing_path_default : Bool := false

/-- Embedding of `SwiftFTPShell.access` (swftp/ftp/server.py lines 197-228) as
a function of the `getAttrs` outcome: on success it requires the directory
content type, else fails `IsNotADirectoryError`; on `NotFound` it fails
`IsNotADirectoryError` unless `allow_no_existing_path` is set, in which case
paths whose segment count differs from 1 are accepted while single-segment
paths (bare containers) still fail; `UnAuthorized` becomes
`PermissionDeniedError`; anything else propagates. -/
def SwiftFTPShell.access (allow_no_existing_path : Bool) (path : List String)
    (res : Except SwiftError GetAttrsResult) : Except FTPError Unit :=
  let fullpath := pyJoin "/" path
  match res with
  | .ok r =>
    if r.content_type = "application/directory" then .ok ()
    else .error (.isNotADirectory fullpath)
  | .error .notFound =>
    if !allow_no_existing_path then .error (.isNotADirectory fullpath)
    else if path.length ≠ 1 then .ok ()
    else .error (.isNotADirectory fullpath)
  | .error .unAuthorized => .error (.permissionDenied fullpath)
  | .error e => .error (.propagated e)

/-- Termination reason delivered to `SwiftReadFile.connectionLost` by the
backend HTTP client: `responseDone` is twisted's clean end-of-body signal;
`potentialDataLoss` is twisted's marker that the response body may be
incomplete because the framing carried no length information (a
transport-level partial-body condition); `otherFailure` is any other
transport failure. -/
inductive ConnectionCloseReason where
  | responseDone
  | potentialDataLoss
  | otherFailure (msg : String)
deriving DecidableEq

/-- How the per-download completion deferred `self.finished` is resolved. -/
inductive DownloadSignal where
  | callbackSuccess
  | errback (r : ConnectionCloseReason)
deriving DecidableEq

/-- Embedding of `SwiftReadFile.connectionLost` (swftp/ftp/server.py lines
334-342): if the reason is `ResponseDone` or `PotentialDataLoss` the
completion deferred is called back with success, otherwise it is errbacked
with the reason. -/
def SwiftReadFile.connectionLost (reason : ConnectionCloseReason) : DownloadSignal :=
  match reason with
  | .responseDone => .callbackSuccess
  | .potentialDataLoss => .callbackSuccess
  | .otherFailure msg => .errback (.otherFailure msg)

/-- A termination reason is a clean end-of-body indication exactly when it is
twisted's `ResponseDone`; `PotentialDataLoss` by definition reports that the
body may have been cut short, so it is a partial-body condition, not a clean
end-of-body signal. -/
def isCleanEndOfBody : ConnectionCloseReason → Bool
  | .responseDone => true
  | _ => false

/-- Value of the twisted constant `NAME_SYS_TYPE` (the SYST reply key, reply
code 215), used by the overridden `reply`. -/
def NAME_SYS_TYPE : String := "215"

/-- Action taken by the overridden `reply`: either a hardcoded `sendLine` or
delegation to the protocol engine's own reply table. -/
inductive FTPReplyAction where
  | sendLine (line : String)
  | superReply (key : String)
deriving DecidableEq

/-- Embedding of `SwftpFTPProtocol.reply` (swftp/ftp/server.py lines 96-100):
for the `NAME_SYS_TYPE` key it sends the hardcoded line, every other key is
delegated to the superclass. -/
def SwftpFTPProtocol.reply (key : String) : FTPReplyAction :=
  if key = NAME_SYS_TYPE then .sendLine "205 UNIX Type: I"
  else .superReply key

/-- Claim C3 counterexample: the backend terminating a download with
`PotentialDataLoss` — a transport-level partial-body condition, not a clean
end-of-body indication — makes `SwiftReadFile.connectionLost` resolve the
completion deferred as success, where the claim requires it to be rejected as
a failure. -/
theorem claim_C3_counterexample :
    SwiftReadFile.connectionLost .potentialDataLoss = .callbackSuccess
    ∧ isCleanEndOfBody .potentialDataLoss = false
    ∧ SwiftReadFile.connectionLost .potentialDataLoss
        ≠ .errback .potentialDataLoss := by
  decide

/-- Claim C3 amended: the completion signal of a download resolves
successfully exactly when the termination reason is `ResponseDone` (clean
end-of-body) or `PotentialDataLoss` (possibly-truncated body); every other
termination reason is rejected as a failure carrying that reason. -/
theorem claim_C3_amended (r : ConnectionCloseReason) :
    (SwiftReadFile.connectionLost r = .callbackSuccess
      ↔ (r = .responseDone ∨ r = .potentialDataLoss))
    ∧ (∀ msg : String,
        SwiftReadFile.connectionLost (.otherFailure msg)
          = .errback (.otherFailure msg)) := by
  constructor
  · cases r <;> simp [SwiftReadFile.connectionLost]
  · intro msg; rfl

/-- Claim C4: the code replies to the SYST key with the hardcoded line
"205 UNIX Type: I" — the reply code 205 contradicts the claimed (and RFC 959
standard) 215 for a SYST response. -/
theorem claim_C4 :
    SwftpFTPProtocol.reply NAME_SYS_TYPE = .sendLine "205 UNIX Type: I"
    ∧ "205 UNIX Type: I" ≠ "215 UNIX Type: I" := by
  exact ⟨rfl, by decide⟩

/-- Claim C5: when the underlying removeDirectory fails with NotFound, both
front ends absorb the failure and report success; when it fails with Conflict,
the FTP front end raises CmdNotImplementedForArgError and the SFTP front end
raises SFTPError FX_FAILURE with message Directory Not Empty — neither
success nor a NotFound-style error. -/
theorem claim_C5 :
    SwiftFTPShell.removeDirectory (.error .notFound) = .ok ()
    ∧ SFTPServerForSwiftConchUser.removeDirectory (.error .notFound) = .ok ()
    ∧ SwiftFTPShell.removeDirectory (.error .conflict)
        = .error (.cmdNotImplementedForArg "Cannot delete non-empty directories.")
    ∧ SFTPServerForSwiftConchUser.removeDirectory (.error .conflict)
        = .error (.sftpError .fxFailure "Directory Not Empty") :=
  ⟨rfl, rfl, rfl, rfl⟩

/-- Decides whether an SFTP front-end outcome is an explicitly raised
protocol-level SFTP error (as opposed to success or an untrapped backend
failure propagating to the protocol engine). -/
def isRaisedSFTPError : Except SFTPFailureKind Unit → Bool
  | .error (.sftpError _ _) => true
  | _ => false

/-- Claim C6 counterexample: on the directory-type backend failure
(`NotImplementedError`, raised when the path resolves to a container or
pseudo-directory), the SFTP front end's removeFile neither succeeds nor
raises any protocol-level SFTP error — in particular no is-a-directory
error — it lets the raw backend failure propagate untranslated. -/
theorem claim_C6_counterexample :
    SFTPServerForSwiftConchUser.removeFile (.error .notImplementedError)
      = .error (.propagated .notImplementedError)
    ∧ isRaisedSFTPError
        (SFTPServerForSwiftConchUser.removeFile (.error .notImplementedError))
      = false
    ∧ SFTPServerForSwiftConchUser.removeFile (.error .notImplementedError)
      ≠ .ok () :=
  ⟨rfl, rfl, fun h => Except.noConfusion h⟩

/-- Claim C6 amended: on a path resolving to a container or pseudo-directory
(directory-type backend failure), the FTP front end's removeFile fails with
IsADirectoryError while the SFTP front end's removeFile propagates the
directory-type failure untranslated (the external protocol engine reports it
as an unsupported-operation status, not as an is-a-directory error); for an
absent path (NotFound) both front ends absorb the failure and report
success. -/
theorem claim_C6_amended (fullpath : String) :
    SwiftFTPShell.removeFile fullpath (.error .notImplementedError)
      = .error (.isADirectory fullpath)
    ∧ SwiftFTPShell.removeFile fullpath (.error .notFound) = .ok ()
    ∧ SFTPServerForSwiftConchUser.removeFile (.error .notFound) = .ok ()
    ∧ SFTPServerForSwiftConchUser.removeFile (.error .notImplementedError)
        = .error (.propagated .notImplementedError) :=
  ⟨rfl, rfl, rfl, rfl⟩

/-- Claim C7 counterexample: with allow-no-existing-path enabled, the
existence precheck on a nonexistent single-segment (bare container) path
still fails with a not-a-directory error — the claim says the relaxation
applies exactly there — while a nonexistent two-segment path is relaxed to
success — the claim says such paths still fail. -/
theorem claim_C7_counterexample :
    SwiftFTPShell.access true ["images"] (.error .notFound)
      = .error (.isNotADirectory "images")
    ∧ SwiftFTPShell.access true ["images", "cats"] (.error .notFound)
      = .ok () :=
  ⟨rfl, rfl⟩

/-- Claim C7 amended: the mode defaults to disabled; when disabled, the
access/existence precheck fails with a not-a-directory error for every path
whose target does not exist; when enabled, the relaxation applies to paths
whose segment count differs from 1 (the root and nested paths), while
nonexistent single-segment paths (bare containers) still fail the
precheck. -/
theorem claim_C7_amended (path : List String) :
    SwiftFTPShell.allow_no_existing_path_default = false
    ∧ SwiftFTPShell.access false path (.error .notFound)
        = .error (.isNotADirectory (pyJoin "/" path))
    ∧ SwiftFTPShell.access true path (.error .notFound)
        = (if path.length = 1
           then .error (.isNotADirectory (pyJoin "/" path))
           else .ok ()) := by
  refine ⟨rfl, rfl, ?_⟩
  by_cases h : path.length = 1 <;> simp [SwiftFTPShell.access, h]

/-- Modelled from the spec: `obj_to_path` lives in swftp/swiftfilesystem.py,
which is not under src/. Spec section 3: segment 0 of a path is the container
name; segments 1..n, joined by slashes, form the object name; zero segments
denotes the account root. The function splits a full path into its container
name and object name, either of which may be missing. -/
def obj_to_path : List String → Option String × Option String
  | [] => (none, none)
  | [c] => (some c, none)
  | c :: rest => (some c, some (pyJoin "/" rest))

/-- Python truthiness of an optional string: `None` and the empty string are
falsy. -/
def pyTruthy : Option String → Bool
  | none => false
  | some s => if s = "" then false else true

/-- The writable file object returned by `openForWriting`
(`SwiftWriteFile(self.swiftfilesystem, fullpath)`). -/
structure SwiftWriteFile where
  fullpath : String
deriving DecidableEq

/-- Embedding of `SwiftFTPShell.openForWriting` (swftp/ftp/server.py lines
284-293): split the joined path with `obj_to_path`; if the container or the
object name is missing, raise `CmdNotImplementedForArgError` without starting
an upload; otherwise return a `SwiftWriteFile` for the full path. -/
def SwiftFTPShell.openForWriting (path : List String) :
    Except FTPError SwiftWriteFile :=
  let fullpath := pyJoin "/" path
  let parsed := obj_to_path path
  if !pyTruthy parsed.1 || !pyTruthy parsed.2 then
    .error (.cmdNotImplementedForArg "Cannot upload files to root directory.")
  else
    .ok ⟨fullpath⟩

lemma pyJoin_ne_empty (s : String) (l : List String) (hs : s ≠ "") :
    pyJoin "/" (s :: l) ≠ "" := by
  cases l with
  | nil => simpa [pyJoin] using hs
  | cons t ts =>
    intro h
    have hd := congrArg String.data h
    simp only [pyJoin, String.data_append] at hd
    rcases List.append_eq_nil.mp (List.append_eq_nil.mp hd).1 with ⟨-, hsep⟩
    exact absurd hsep (by decide)

/-- Claim C9: for every path of nonempty segments that lacks a container
segment or an object name (the root or a bare container path),
`openForWriting` fails with the unsupported-operation error
CmdNotImplementedForArgError and no upload is started; for every such path
with both a container and an object name it returns a writable file object
for the full path. -/
theorem claim_C9 (path : List String) (hseg : ∀ s ∈ path, s ≠ "") :
    SwiftFTPShell.openForWriting path
      = (if path.length ≤ 1
         then .error (.cmdNotImplementedForArg "Cannot upload files to root directory.")
         else .ok ⟨pyJoin "/" path⟩) := by
  match path with
  | [] => rfl
  | [c] => simp [SwiftFTPShell.openForWriting, obj_to_path, pyTruthy]
  | c :: c2 :: rest =>
    have hc : c ≠ "" := hseg c (by simp)
    have hc2 : c2 ≠ "" := hseg c2 (by simp)
    have hobj : pyJoin "/" (c2 :: rest) ≠ "" := pyJoin_ne_empty c2 rest hc2
    simp only [SwiftFTPShell.openForWriting, obj_to_path, pyTruthy,
      if_neg hc, if_neg hobj]
    simp [List.length_cons]

/-- Witness for claim C9 at concrete paths: the bare container path fails
with the unsupported-operation error and a two-segment path opens a writable
file object. -/
theorem claim_C9_witness :
    SwiftFTPShell.openForWriting ["pictures"]
      = .error (.cmdNotImplementedForArg "Cannot upload files to root directory.")
    ∧ SwiftFTPShell.openForWriting ["pictures", "cat.jpg"]
      = .ok ⟨"pictures/cat.jpg"⟩ := by
  have h1 := claim_C9 ["pictures"] (by intro s hs; simp at hs; simp [hs])
  have h2 := claim_C9 ["pictures", "cat.jpg"]
    (by intro s hs; simp at hs; rcases hs with h | h <;> simp [h])
  refine ⟨?_, ?_⟩
  · simpa using h1
  · rw [h2]; rfl

/-- Character class used by Python `str.split()` with no argument. -/
def isSpaceChar (c : Char) : Bool := c.isWhitespace

/-- Worker for Python `str.split()`: scan the characters, accumulating the
current token in reverse; whitespace ends the current token (if any), and a
trailing token is emitted at the end. -/
def splitAux : List Char → List Char → List (List Char)
  | [], acc => if acc.isEmpty then [] else [acc.reverse]
  | c :: rest, acc =>
    if isSpaceChar c then
      if acc.isEmpty then splitAux rest [] else acc.reverse :: splitAux rest []
    else
      splitAux rest (c :: acc)

/-- Python `s.split()`: the whitespace-delimited tokens of `s`, with no empty
tokens. -/
def pySplitWhitespace (s : List Char) : List (List Char) := splitAux s []

/-- Python single-space join of a token list. -/
def pyJoinSpace : List (List Char) → List Char
  | [] => []
  | [t] => t
  | t :: ts => t ++ ' ' :: pyJoinSpace ts

/-- Python `s.lower()` on a token. -/
def pyLower (t : List Char) : List Char := t.map Char.toLower

/-- The recognized listing flags stripped by `ftp_LIST`
(swftp/ftp/server.py line 90). -/
def listFlagKeys : List (List Char) :=
  [['-', 'a'], ['-', 'l'], ['-', 'l', 'a'], ['-', 'a', 'l']]

/-- Python `s.lower() in keys` for the listing-flag keys. -/
def isListFlag (t : List Char) : Bool := decide (pyLower t ∈ listFlagKeys)

/-- Embedding of the path rewriting in `SwftpFTPProtocol.ftp_LIST`
(swftp/ftp/server.py lines 88-94): split the argument on whitespace, drop
every token whose lowercasing is a recognized listing flag, and join the
remaining tokens with single spaces; the result is what is resolved as the
path. -/
def SwftpFTPProtocol.ftp_LIST_path (path : List Char) : List Char :=
  pyJoinSpace ((pySplitWhitespace path).filter (fun s => !isListFlag s))

lemma splitAux_nil (acc : List Char) :
    splitAux [] acc = if acc.isEmpty then [] else [acc.reverse] := rfl

lemma splitAux_cons (c : Char) (rest acc : List Char) :
    splitAux (c :: rest) acc
      = if isSpaceChar c then
          if acc.isEmpty then splitAux rest [] else acc.reverse :: splitAux rest []
        else splitAux rest (c :: acc) := rfl

lemma splitAux_token (t : List Char) :
    ∀ (s acc : List Char), (∀ c ∈ t, isSpaceChar c = false) →
      splitAux (t ++ s) acc = splitAux s (t.reverse ++ acc) := by
  induction t with
  | nil => intro s acc _; simp
  | cons c t ih =>
    intro s acc h
    have hc : isSpaceChar c = false := h c (by simp)
    rw [List.cons_append, splitAux_cons, if_neg (by simp [hc]),
      ih s (c :: acc) (fun c2 hc2 => h c2 (by simp [hc2]))]
    congr 1
    simp

lemma splitAux_wf :
    ∀ (s acc : List Char), (∀ c ∈ acc, isSpaceChar c = false) →
      ∀ t ∈ splitAux s acc, t ≠ [] ∧ ∀ c ∈ t, isSpaceChar c = false := by
  intro s
  induction s with
  | nil =>
    intro acc hacc t ht
    rw [splitAux_nil] at ht
    by_cases he : acc.isEmpty
    · rw [if_pos he] at ht
      exact absurd ht (by simp)
    · rw [if_neg he] at ht
      rw [List.mem_singleton] at ht
      subst ht
      refine ⟨by simpa [List.isEmpty_iff] using he, ?_⟩
      intro c hcmem
      exact hacc c (List.mem_reverse.mp hcmem)
  | cons c rest ih =>
    intro acc hacc t ht
    rw [splitAux_cons] at ht
    by_cases hc : isSpaceChar c = true
    · rw [if_pos hc] at ht
      by_cases he : acc.isEmpty
      · rw [if_pos he] at ht
        exact ih [] (by simp) t ht
      · rw [if_neg he, List.mem_cons] at ht
        rcases ht with ht | ht
        · subst ht
          refine ⟨by simpa [List.isEmpty_iff] using he, ?_⟩
          intro c2 hc2
          exact hacc c2 (List.mem_reverse.mp hc2)
        · exact ih [] (by simp) t ht
    · rw [if_neg hc] at ht
      refine ih (c :: acc) ?_ t ht
      intro c2 hc2
      rcases List.mem_cons.mp hc2 with h2 | h2
      · subst h2; simpa using hc
      · exact hacc c2 h2

lemma pySplit_pyJoin (ts : List (List Char))
    (h : ∀ t ∈ ts, t ≠ [] ∧ ∀ c ∈ t, isSpaceChar c = false) :
    pySplitWhitespace (pyJoinSpace ts) = ts := by
  induction ts with
  | nil => rfl
  | cons t ts ih =>
    obtain ⟨hne, hns⟩ := h t (by simp)
    have hrevne : (t.reverse.isEmpty) = false := by
      simp [List.isEmpty_iff, hne]
    cases ts with
    | nil =>
      show splitAux (pyJoinSpace [t]) [] = [t]
      have hj : pyJoinSpace [t] = t ++ [] := by simp [pyJoinSpace]
      rw [hj, splitAux_token t [] [] hns, List.append_nil, splitAux_nil,
        if_neg (by simp [hrevne]), List.reverse_reverse]
    | cons t2 ts2 =>
      show splitAux (pyJoinSpace (t :: t2 :: ts2)) [] = t :: t2 :: ts2
      have hj : pyJoinSpace (t :: t2 :: ts2) = t ++ ' ' :: pyJoinSpace (t2 :: ts2) := rfl
      rw [hj, splitAux_token t (' ' :: pyJoinSpace (t2 :: ts2)) [] hns,
        List.append_nil, splitAux_cons, if_pos (by decide),
        if_neg (by simp [hrevne]), List.reverse_reverse]
      have hrest := ih (fun t3 ht3 => h t3 (by simp [ht3]))
      unfold pySplitWhitespace at hrest
      rw [hrest]

/-- Claim C8: for every LIST argument, the tokens of the rewritten path are
exactly the whitespace-delimited tokens of the argument minus those whose
lowercasing is a recognized listing flag; and an argument none of whose
tokens is such a flag is passed through up to whitespace normalization
(single-space rejoining of its tokens). -/
theorem claim_C8 (path : List Char) :
    pySplitWhitespace (SwftpFTPProtocol.ftp_LIST_path path)
      = (pySplitWhitespace path).filter (fun t => !isListFlag t)
    ∧ ((pySplitWhitespace path).all (fun t => !isListFlag t) = true →
        SwftpFTPProtocol.ftp_LIST_path path = pyJoinSpace (pySplitWhitespace path)) := by
  constructor
  · apply pySplit_pyJoin
    intro t ht
    exact splitAux_wf path [] (by simp) t (List.mem_filter.mp ht).1
  · intro hall
    unfold SwftpFTPProtocol.ftp_LIST_path
    rw [List.filter_eq_self.mpr]
    intro a ha
    exact List.all_eq_true.mp hall a ha

/-- Witness for claim C8 on the concrete argument consisting of the tokens
foo and bar separated by two spaces: no token is a listing flag, so the
result is the argument with normalized whitespace, and its token list is the
filtered token list. -/
theorem claim_C8_witness :
    pySplitWhitespace
        (SwftpFTPProtocol.ftp_LIST_path ['f', 'o', 'o', ' ', ' ', 'b', 'a', 'r'])
      = (pySplitWhitespace ['f', 'o', 'o', ' ', ' ', 'b', 'a', 'r']).filter
          (fun t => !isListFlag t)
    ∧ SwftpFTPProtocol.ftp_LIST_path ['f', 'o', 'o', ' ', ' ', 'b', 'a', 'r']
      = pyJoinSpace (pySplitWhitespace ['f', 'o', 'o', ' ', ' ', 'b', 'a', 'r']) := by
  have h := claim_C8 ['f', 'o', 'o', ' ', ' ', 'b', 'a', 'r']
  exact ⟨h.1, h.2 (by decide)⟩

/-- Python substring membership `needle in hay` on strings, as used by
`key in 'owner'` in `stat_format`: true exactly when the needle is a
contiguous substring of the haystack (so the empty string is in every
string). -/
def pyInStr (needle hay : String) : Bool := decide (needle.data <:+: hay.data)

/-- Value of `stat.S_IFDIR` (octal 40000). -/
def S_IFDIR : Nat := 16384

/-- Result of `swift_stat(**props)` as consumed by `stat_format`; the
function `swift_stat` itself lives in swftp/swiftfilesystem.py, which is not
under src/, so the formatter is parametrized by its result (the claim only
concerns the key dispatch, which does not depend on these fields). -/
structure SwiftStatResult where
  st_mode : Nat
  st_size : Int
  st_mtime : Int
deriving DecidableEq

/-- A value produced by `stat_format` for one key (Python is dynamically
typed, so the list mixes numbers, booleans and strings). -/
inductive StatValue where
  | natVal (n : Nat)
  | intVal (i : Int)
  | boolVal (b : Bool)
  | strVal (s : String)
deriving DecidableEq

/-- Embedding of the per-key dispatch of `stat_format`
(swftp/ftp/server.py lines 24-45): the five recognized keys read fields of
the synthesized stat; any other key yields the string nobody when it is a
substring of owner or of group (Python `key in 'owner'`), and the empty
string otherwise. -/
def stat_format_val (st : SwiftStatResult) (key : String) : StatValue :=
  if key = "size" then .intVal st.st_size
  else if key = "directory" then .boolVal (decide (st.st_mode &&& S_IFDIR = S_IFDIR))
  else if key = "permissions" then .natVal st.st_mode
  else if key = "hardlinks" then .natVal 0
  else if key = "modified" then .intVal st.st_mtime
  else if pyInStr key "owner" then .strVal "nobody"
  else if pyInStr key "group" then .strVal "nobody"
  else .strVal ""

/-- Embedding of `stat_format`: one value per requested key. -/
def stat_format (keys : List String) (st : SwiftStatResult) : List StatValue :=
  keys.map (stat_format_val st)

/-- Claim C10: for every requested key not among size, directory,
permissions, hardlinks, modified, the formatted value is the string nobody
exactly when the key is a contiguous substring of owner or of group, and the
empty string otherwise; keys such as own, er, up and the empty string also
yield nobody, and hardlinks always yields 0. -/
theorem claim_C10 (st : SwiftStatResult) (key : String)
    (hkey : key ∉ (["size", "directory", "permissions", "hardlinks", "modified"] : List String)) :
    (stat_format_val st key = .strVal "nobody"
      ↔ ((key.data <:+: "owner".data) ∨ (key.data <:+: "group".data)))
    ∧ (stat_format_val st key = .strVal ""
      ↔ ¬((key.data <:+: "owner".data) ∨ (key.data <:+: "group".data)))
    ∧ stat_format_val st "hardlinks" = .natVal 0
    ∧ stat_format_val st "own" = .strVal "nobody"
    ∧ stat_format_val st "er" = .strVal "nobody"
    ∧ stat_format_val st "up" = .strVal "nobody"
    ∧ stat_format_val st "" = .strVal "nobody" := by
  simp only [List.mem_cons, List.not_mem_nil, or_false] at hkey
  push_neg at hkey
  obtain ⟨h1, h2, h3, h4, h5⟩ := hkey
  have hdef : stat_format_val st key
      = (if pyInStr key "owner" then .strVal "nobody"
         else if pyInStr key "group" then .strVal "nobody"
         else .strVal "") := by
    unfold stat_format_val
    rw [if_neg h1, if_neg h2, if_neg h3, if_neg h4, if_neg h5]
  refine ⟨?_, ?_, rfl, rfl, rfl, rfl, rfl⟩
  · by_cases hA : key.data <:+: "owner".data
    · simp [hdef, pyInStr, hA]
    · by_cases hB : key.data <:+: "group".data <;>
        simp [hdef, pyInStr, hA, hB]
  · by_cases hA : key.data <:+: "owner".data
    · simp [hdef, pyInStr, hA]
    · by_cases hB : key.data <:+: "group".data <;>
        simp [hdef, pyInStr, hA, hB]

/-- Witness for claim C10 at the concrete key own (not one of the five
recognized keys): it formats to nobody, and the remaining conjuncts
instantiate accordingly. -/
theorem claim_C10_witness :
    (stat_format_val ⟨0, 0, 0⟩ "own" = .strVal "nobody"
      ↔ (("own".data <:+: "owner".data) ∨ ("own".data <:+: "group".data)))
    ∧ (stat_format_val ⟨0, 0, 0⟩ "own" = .strVal ""
      ↔ ¬(("own".data <:+: "owner".data) ∨ ("own".data <:+: "group".data)))
    ∧ stat_format_val ⟨0, 0, 0⟩ "hardlinks" = .natVal 0
    ∧ stat_format_val ⟨0, 0, 0⟩ "own" = .strVal "nobody"
    ∧ stat_format_val ⟨0, 0, 0⟩ "er" = .strVal "nobody"
    ∧ stat_format_val ⟨0, 0, 0⟩ "up" = .strVal "nobody"
    ∧ stat_format_val ⟨0, 0, 0⟩ "" = .strVal "nobody" :=
  claim_C10 ⟨0, 0, 0⟩ "own" (by decide)

end Swftp
